import Mathlib

/-!
# Verification of the Freshdesk MCP connector (src/main.py)

A shallow embedding of the connector in Lean 4. JSON values are modelled by
an inductive `Json`; the network is abstracted by an oracle giving, for each
upstream request, its transport-level outcome (`HttpOutcome`). Each adapter
function (`fd_get`, `fd_post`, `fd_put`) and each tool handler relevant to the
claims (`search`, `fetch`, `update_ticket`) is translated line by line from
the source. Python dictionary/string idioms used by the source
(`x in d`, `d.get(k, default)`, truthiness, `str.strip`, f-string rendering,
slicing) are given explicit executable models (`pyIn`, `pyGetD`, `pyTruthy`,
`pyStrip`, `pyStr`).

Where the source would raise a Python exception on upstream data of an
unexpected shape (for example calling `.get` on a non-dict, or iterating a
non-list), the model notes this in a comment; every theorem below pins the
shapes involved so that no such case is reached.
-/

/-- JSON values, as produced by decoding an upstream response body.
Numbers are modelled as integers: every numeric field the connector touches
(ids, status codes, priorities) is an integer in the Freshdesk API. -/
inductive Json where
  | null : Json
  | bool (b : Bool) : Json
  | num (n : Int) : Json
  | str (s : String) : Json
  | arr (elems : List Json) : Json
  | obj (fields : List (String × Json)) : Json

namespace Json

/-- Python truthiness (`if x:`) on a JSON value: None, False, 0, "", [], {}
are falsy, everything else truthy. -/
def pyTruthy : Json → Bool
  | .null => false
  | .bool b => b
  | .num n => n != 0
  | .str s => s != ""
  | .arr xs => !xs.isEmpty
  | .obj fs => !fs.isEmpty

/-- Character-list matching used to model the Python substring test. -/
def listStartsWith : List Char → List Char → Bool
  | [], _ => true
  | _ :: _, [] => false
  | a :: as, b :: bs => a == b && listStartsWith as bs

/-- Python substring containment `pat in s` on strings. -/
def strContains (s pat : String) : Bool :=
  (List.range (s.length + 1)).any fun i => listStartsWith pat.toList (s.toList.drop i)

/-- Python membership test `k in j` as the source uses it with a string key:
key membership on a dict, element membership on a list, substring test on a
string. On None/bool/number Python raises TypeError; the model returns false
there, and every theorem below constrains the shape so that branch is never
the deciding one. -/
def pyIn (k : String) : Json → Bool
  | .obj fields => fields.any fun f => f.1 == k
  | .arr xs => xs.any fun x => match x with | .str s => s == k | _ => false
  | .str s => strContains s k
  | _ => false

/-- Python `d.get(k, default)`. On a non-dict Python raises AttributeError;
the model returns the default, and the theorems pin the dict shape. -/
def pyGetD (j : Json) (k : String) (d : Json) : Json :=
  match j with
  | .obj fields => ((fields.lookup k).getD d)
  | _ => d

/-- The underlying string of a JSON string; used only where the source
performs a string operation (slicing), so a non-string there would be a
Python TypeError. The theorems about such fields carry a string-shaped
hypothesis. -/
def asStr : Json → String
  | .str s => s
  | _ => ""

/-- The element list of a JSON array; used only where the source iterates or
extends with the value. Python iteration of a dict or string would visit keys
or characters instead; the theorems pin the array shape. -/
def asArr : Json → List Json
  | .arr xs => xs
  | _ => []

/-- Whether the value decodes a JSON object, modelling
`isinstance(x, dict)`. -/
def isDict : Json → Bool
  | .obj _ => true
  | _ => false

/-- Python f-string rendering `f"{x}"` of a decoded JSON value, for the
cases the connector can feed to it: None renders as "None", booleans as
"True"/"False", integers and strings in the usual way. Containers render in
Python via their repr; no claim renders a container, so the model keeps a
fixed placeholder there. -/
def pyStr : Json → String
  | .null => "None"
  | .bool true => "True"
  | .bool false => "False"
  | .num n => toString n
  | .str s => s
  | .arr _ => "<list repr>"
  | .obj _ => "<dict repr>"

end Json

/-- The error-record constructor `{"error": msg}` the adapters return. -/
def errObj (msg : String) : Json := Json.obj [("error", Json.str msg)]

/-- The decoded body of an HTTP response: either valid JSON or a decode
failure (the message of the exception `r.json()` raises). -/
inductive RespBody where
  | json (j : Json) : RespBody
  | malformed (msg : String) : RespBody

/-- Transport-level outcome of one upstream request:
either the requests call raised before a response existed (connection error,
timeout, ...), carrying the exception message, or a response arrived with a
status code, a reason phrase, a body text, and a decoded body. -/
inductive HttpOutcome where
  | raised (msg : String) : HttpOutcome
  | response (status : Nat) (reason : String) (text : String) (body : RespBody) : HttpOutcome

/-- Whether `raise_for_status` raises: requests raises HTTPError exactly for
status codes 400-599. -/
def raisesForStatus (status : Nat) : Bool := 400 ≤ status && status < 600

/-- The message `str(e)` of the HTTPError raised by `raise_for_status`, as
requests formats it. -/
def httpErrorStr (status : Nat) (reason : String) (url : String) : String :=
  toString status ++ (if status < 500 then " Client Error: " else " Server Error: ")
    ++ reason ++ " for url: " ++ url

/-- `fd_get` from src/main.py lines 44-60: one authenticated GET. HTTPError
(status 400-599) is caught and converted to an error record naming the status
and body text; any other exception (connection error, timeout, JSON decode
failure) is caught and converted to an error record with the exception
message. The function is total: no exception escapes. -/
def fd_get (o : HttpOutcome) : Json :=
  match o with
  | .raised msg => errObj msg
  | .response status _reason text body =>
      if raisesForStatus status then
        errObj ("HTTP " ++ toString status ++ ": " ++ text)
      else
        match body with
        | .json j => j
        | .malformed msg => errObj msg

/-- `fd_get` viewed against a stream of successive upstream outcomes, also
reporting how many upstream attempts the call makes. The source performs a
single `requests.get` with no loop, so exactly one outcome is consumed and
the attempt count is always 1. -/
def fd_get_trace (outcomes : Nat → HttpOutcome) : Json × Nat :=
  (fd_get (outcomes 0), 1)

/-- The request URL `f"{BASE_URL}/{endpoint}"`. -/
def requestUrl (domain endpoint : String) : String :=
  "https://" ++ domain ++ "/api/v2/" ++ endpoint

/-- `fd_post` from src/main.py lines 63-76: one authenticated POST. Every
exception, including the HTTPError from `raise_for_status`, falls to the
generic handler and becomes an error record with the exception message. The
`data` argument is sent on the wire; the oracle outcome already reflects the
upstream reaction, so it does not further affect the result. -/
def fd_post (domain endpoint : String) (_data : Json) (o : HttpOutcome) : Json :=
  match o with
  | .raised msg => errObj msg
  | .response status reason _text body =>
      if raisesForStatus status then
        errObj (httpErrorStr status reason (requestUrl domain endpoint))
      else
        match body with
        | .json j => j
        | .malformed msg => errObj msg

/-- `fd_put` from src/main.py lines 79-92: identical structure to `fd_post`
with the PUT verb. -/
def fd_put (domain endpoint : String) (_data : Json) (o : HttpOutcome) : Json :=
  match o with
  | .raised msg => errObj msg
  | .response status reason _text body =>
      if raisesForStatus status then
        errObj (httpErrorStr status reason (requestUrl domain endpoint))
      else
        match body with
        | .json j => j
        | .malformed msg => errObj msg

/-- The query parameters `{"page": page, "per_page": per_page}` of one
search request, plus the quoted query string the helper adds when the query
is truthy. -/
structure SearchParams where
  page : Nat
  per_page : Nat
  query : Option String
  deriving DecidableEq, Repr

/-- The "query" entry placed into the parameters: present exactly when the
query argument is a truthy string, and then wrapped in double quotes. -/
def queryParam (query : Option String) : Option String :=
  match query with
  | some q => if q != "" then some ("\"" ++ q ++ "\"") else none
  | none => none

/-- Loop body of `paginate_tickets` (src/main.py lines 102-115), by fuel on
the remaining page budget: one iteration performs `fd_get("search/tickets")`
through the oracle, stops on an error record, on a falsy result list, or on
a short page, and otherwise continues with the next page number. Returns the
concatenated tickets together with the number of upstream calls made. If
the "results" value were a truthy non-list, Python `extend`/`len` would
raise TypeError; the theorems only use list-shaped results. -/
def paginateAux (fetchO : SearchParams → HttpOutcome) (query : Option String)
    (per_page : Nat) : Nat → Nat → List Json → Nat → List Json × Nat
  | _, 0, all_tickets, calls => (all_tickets, calls)
  | page, fuel + 1, all_tickets, calls =>
    let data := fd_get (fetchO ⟨page, per_page, queryParam query⟩)
    if Json.pyIn "error" data then (all_tickets, calls + 1)
    else
      let ticketsJ := Json.pyGetD data "results" (Json.arr [])
      if !ticketsJ.pyTruthy then (all_tickets, calls + 1)
      else
        let tickets := ticketsJ.asArr
        let all_tickets := all_tickets ++ tickets
        if tickets.length < per_page then (all_tickets, calls + 1)
        else paginateAux fetchO query per_page (page + 1) fuel all_tickets (calls + 1)

/-- `paginate_tickets` from src/main.py lines 97-117: page numbers start at
1 and the loop runs while `page <= max_pages`, so the fuel is `max_pages`.
Returns the concatenated ticket list and the number of upstream calls. -/
def paginate_tickets (fetchO : SearchParams → HttpOutcome) (query : Option String)
    (per_page : Nat := 50) (max_pages : Nat := 5) : List Json × Nat :=
  paginateAux fetchO query per_page 1 max_pages [] 0

/-- Whitespace for Python `str.strip()` with no argument: space, tab,
newline, carriage return, vertical tab, form feed (ASCII; the exotic Unicode
space classes are immaterial to the claims). -/
def pyIsSpace (c : Char) : Bool :=
  c == ' ' || c == '\t' || c == '\n' || c == '\r' || c == '\x0b' || c == '\x0c'

/-- Python `s.strip()`: the string with leading and trailing whitespace
removed. -/
def pyStrip (s : String) : String :=
  String.mk (((s.toList.dropWhile pyIsSpace).reverse.dropWhile pyIsSpace).reverse)

/-- The per-ticket summary record built by `search` (src/main.py lines
148-157): selected fields, the description text sliced to its first 200
characters with "..." appended, and the permalink built by an f-string from
the ticket id. -/
def summarize (domain : String) (t : Json) : Json :=
  Json.obj [
    ("id", t.pyGetD "id" Json.null),
    ("subject", t.pyGetD "subject" Json.null),
    ("description", Json.str ((t.pyGetD "description_text" (Json.str "")).asStr.take 200 ++ "...")),
    ("status", t.pyGetD "status" Json.null),
    ("priority", t.pyGetD "priority" Json.null),
    ("created_at", t.pyGetD "created_at" Json.null),
    ("updated_at", t.pyGetD "updated_at" Json.null),
    ("url", Json.str ("https://" ++ domain ++ "/a/tickets/" ++ Json.pyStr (t.pyGetD "id" Json.null)))]

/-- The `search` tool (src/main.py lines 142-159): a query that strips to
the empty string is answered with an empty result list before any network
activity; otherwise the paginated search runs with the default bounds
(per_page 50, max_pages 5) and each ticket is reshaped into a summary.
The second component counts the upstream calls made. -/
def search (domain : String) (fetchO : SearchParams → HttpOutcome) (query : String) :
    Json × Nat :=
  if pyStrip query == "" then (Json.obj [("results", Json.arr [])], 0)
  else
    let tickets := (paginate_tickets fetchO (some query)).1
    (Json.obj [("results", Json.arr (tickets.map (summarize domain)))],
      (paginate_tickets fetchO (some query)).2)

/-- One conversation item as reshaped by `fetch` (src/main.py lines
188-195). -/
def convItem (c : Json) : Json :=
  Json.obj [
    ("id", c.pyGetD "id" Json.null),
    ("body_text", c.pyGetD "body_text" (Json.str "")),
    ("from_email", c.pyGetD "from_email" Json.null),
    ("to_emails", c.pyGetD "to_emails" Json.null),
    ("incoming", c.pyGetD "incoming" Json.null),
    ("created_at", c.pyGetD "created_at" Json.null)]

/-- The ticket detail record built by `fetch` (src/main.py lines 175-200)
from the decoded ticket, the conversation list, and the requested ticket
id. -/
def mkDetail (domain : String) (ticket_id : Int) (ticket : Json)
    (conversations : List Json) : Json :=
  Json.obj [
    ("id", ticket.pyGetD "id" Json.null),
    ("subject", ticket.pyGetD "subject" Json.null),
    ("description", ticket.pyGetD "description_text" Json.null),
    ("status", ticket.pyGetD "status" Json.null),
    ("priority", ticket.pyGetD "priority" Json.null),
    ("type", ticket.pyGetD "type" Json.null),
    ("created_at", ticket.pyGetD "created_at" Json.null),
    ("updated_at", ticket.pyGetD "updated_at" Json.null),
    ("requester_id", ticket.pyGetD "requester_id" Json.null),
    ("responder_id", ticket.pyGetD "responder_id" Json.null),
    ("group_id", ticket.pyGetD "group_id" Json.null),
    ("tags", ticket.pyGetD "tags" (Json.arr [])),
    ("conversations", Json.arr (conversations.map convItem)),
    ("metadata", Json.obj [
      ("source", Json.str "freshdesk"),
      ("url", Json.str ("https://" ++ domain ++ "/a/tickets/" ++ toString ticket_id))])]

/-- The `fetch` tool (src/main.py lines 164-200). `ticketO` and `convO` are
the transport outcomes of the two possible upstream GETs. If the decoded
ticket contains an "error" entry it is returned unchanged and the
conversation endpoint is never called; otherwise the conversations are
fetched, an error record there is replaced by the empty list, and the detail
record is assembled. The second component counts the conversation-endpoint
calls (0 or 1). Iterating a truthy non-list conversations value would raise
in Python; the theorems pin list or error-record shapes. -/
def fetch (domain : String) (ticket_id : Int) (ticketO convO : HttpOutcome) :
    Json × Nat :=
  let ticket := fd_get ticketO
  if Json.pyIn "error" ticket then (ticket, 0)
  else
    let conversations := fd_get convO
    let conversations :=
      if conversations.isDict && Json.pyIn "error" conversations then Json.arr []
      else conversations
    (mkDetail domain ticket_id ticket conversations.asArr, 1)

/-- The patch body built by `update_ticket` (src/main.py lines 223-226):
status and priority are included when not None, description only when
truthy (non-None and non-empty). -/
def update_ticket_data (status priority : Option Int) (description : Option String) :
    List (String × Json) :=
  (match status with | some s => [("status", Json.num s)] | none => [])
  ++ (match priority with | some p => [("priority", Json.num p)] | none => [])
  ++ (match description with
      | some d => if d != "" then [("description", Json.str d)] else []
      | none => [])

/-- The `update_ticket` tool (src/main.py lines 221-227): the sparse patch
is submitted with `fd_put` to "tickets/{ticket_id}". -/
def update_ticket (domain : String) (ticket_id : Int)
    (status priority : Option Int) (description : Option String)
    (o : HttpOutcome) : Json :=
  fd_put domain ("tickets/" ++ toString ticket_id)
    (Json.obj (update_ticket_data status priority description)) o

/-! ## Concrete upstream scenarios used by the pagination claims -/

/-- A page of `n` distinct tickets tagged by their page number, so that the
order of concatenation is observable. -/
def scenarioPage (p n : Nat) : List Json :=
  (List.range n).map fun i => Json.obj [("id", Json.num (100 * p + i))]

/-- A successful search response whose decoded body is
`{"results": tickets}`. -/
def searchOk (tickets : List Json) : HttpOutcome :=
  .response 200 "OK" "" (.json (Json.obj [("results", Json.arr tickets)]))

/-- Upstream serving pages of sizes 50, 50, 23 (and hypothetical later
pages that are never requested). -/
def oracleShortPage : SearchParams → HttpOutcome := fun p =>
  if p.page = 1 then searchOk (scenarioPage 1 50)
  else if p.page = 2 then searchOk (scenarioPage 2 50)
  else searchOk (scenarioPage p.page 23)

/-- Upstream whose first page is empty. -/
def oracleEmptyFirst : SearchParams → HttpOutcome := fun _ => searchOk []

/-- Upstream serving a full page of 50 for every page number. -/
def oracleAllFull : SearchParams → HttpOutcome := fun p => searchOk (scenarioPage p.page 50)

/-- A stream of upstream outcomes that answers every attempt with HTTP 429. -/
def oracleAlways429 : Nat → HttpOutcome := fun _ =>
  .response 429 "Too Many Requests" "Rate limit exceeded" (.malformed "Expecting value")

/-- Whether the outcome is one of the transport-level failures the spec
lists: an exception raised by the requests call (connection error, timeout),
a status in 400-599, or a response body that fails to decode as JSON. -/
def isTransportFailure : HttpOutcome → Bool
  | .raised _ => true
  | .response status _ _ body =>
      raisesForStatus status ||
        (match body with | .malformed _ => true | .json _ => false)

/-- A concrete well-formed upstream ticket body used as a test input. -/
def okTicketBody : Json :=
  Json.obj [("id", Json.num 7), ("subject", Json.str "Printer broken"),
            ("description_text", Json.str "The printer is on fire")]

/-- A successful upstream outcome decoding to `okTicketBody`. -/
def okTicketOutcome : HttpOutcome := .response 200 "OK" "" (.json okTicketBody)

/-! ## Helper lemmas shared by the claim theorems -/

theorem pyIn_error_errObj (msg : String) : Json.pyIn "error" (errObj msg) = true := by
  simp [errObj, Json.pyIn]

theorem isDict_errObj (msg : String) : (errObj msg).isDict = true := rfl

/-! ## Claim theorems -/

/-- Claim C1, counterexample: the claim says a GET answered with HTTP 429 is
retried up to 3 attempts and ends in a "max retries reached" error record.
On the code, an upstream that answers 429 on every attempt yields the error
record "HTTP 429: <body text>" after exactly one upstream attempt, not
three, and the error message does not mention max retries. -/
theorem fd_get_429_one_attempt_counterexample :
    fd_get_trace oracleAlways429 = (errObj "HTTP 429: Rate limit exceeded", 1)
    ∧ (fd_get_trace oracleAlways429).2 ≠ 3
    ∧ Json.strContains
        ((fd_get_trace oracleAlways429).1.pyGetD "error" (Json.str "")).asStr
        "max retries" = false :=
  ⟨rfl, by decide, by decide⟩

/-- Claim C1, amended: an adapter GET call whose upstream responds with HTTP
429 makes exactly one upstream attempt, with no backoff and no retry, and
returns the error record whose message is "HTTP 429: " followed by the
response body text; no "max retries reached" error record exists in the
code. -/
theorem fd_get_429_no_retry (outcomes : Nat → HttpOutcome)
    (reason text : String) (body : RespBody)
    (h : outcomes 0 = .response 429 reason text body) :
    fd_get_trace outcomes = (errObj ("HTTP 429: " ++ text), 1) := by
  unfold fd_get_trace
  rw [h]
  rfl

/-- Witness for the amended claim C1 at the constant-429 upstream. -/
theorem fd_get_429_no_retry_witness :
    oracleAlways429 0
      = .response 429 "Too Many Requests" "Rate limit exceeded" (.malformed "Expecting value")
    ∧ fd_get_trace oracleAlways429 = (errObj ("HTTP 429: " ++ "Rate limit exceeded"), 1) :=
  ⟨rfl, fd_get_429_no_retry oracleAlways429 "Too Many Requests" "Rate limit exceeded"
      (.malformed "Expecting value") rfl⟩

set_option maxRecDepth 8000 in
/-- Claim C2: the pagination helper at per-page size 50 and page ceiling 5
concatenates pages in order and halts on the documented conditions: for
pages of sizes [50, 50, 23] it returns their concatenation, 123 tickets in 3
upstream calls; for an empty first page it returns the empty sequence after
1 call; for an upstream serving full pages of 50 without end it returns
exactly 250 tickets from 5 calls. -/
theorem paginate_tickets_halting_scenarios :
    (paginate_tickets oracleShortPage none).1
        = scenarioPage 1 50 ++ scenarioPage 2 50 ++ scenarioPage 3 23
    ∧ (paginate_tickets oracleShortPage none).1.length = 123
    ∧ (paginate_tickets oracleShortPage none).2 = 3
    ∧ (paginate_tickets oracleEmptyFirst none).1 = []
    ∧ (paginate_tickets oracleEmptyFirst none).2 = 1
    ∧ (paginate_tickets oracleAllFull none).1.length = 250
    ∧ (paginate_tickets oracleAllFull none).2 = 5 :=
  ⟨rfl, rfl, rfl, rfl, rfl, rfl, rfl⟩

/-- Claim C3, counterexample: the claim covers every non-2xx status, but
`raise_for_status` only raises for 400-599. A response with status 300 (a
non-2xx status) and a well-formed JSON body is returned as that body by
`fd_get`, with no error field. -/
theorem fd_get_non_2xx_passthrough_counterexample :
    fd_get (.response 300 "Multiple Choices" "[1]" (.json (Json.arr [Json.num 1])))
        = Json.arr [Json.num 1]
    ∧ Json.pyIn "error" (Json.arr [Json.num 1]) = false
    ∧ ¬ (200 ≤ 300 ∧ 300 ≤ 299) :=
  ⟨rfl, rfl, by omega⟩

/-- Claim C3, amended: for every adapter call (GET, POST, or PUT) and every
transport-level failure among a raised connection error or timeout, a
malformed response body, or an HTTP status in 400-599, the adapter returns a
JSON object containing an error field; statuses outside 400-599 are not
converted. Totality of the Lean functions models that no exception crosses
the tool boundary. -/
theorem adapters_error_record_on_transport_failure
    (domain endpoint : String) (data : Json) (o : HttpOutcome)
    (h : isTransportFailure o = true) :
    Json.pyIn "error" (fd_get o) = true
    ∧ Json.pyIn "error" (fd_post domain endpoint data o) = true
    ∧ Json.pyIn "error" (fd_put domain endpoint data o) = true := by
  cases o with
  | raised msg => exact ⟨pyIn_error_errObj _, pyIn_error_errObj _, pyIn_error_errObj _⟩
  | response status reason text body =>
    by_cases hs : raisesForStatus status = true
    · simp [fd_get, fd_post, fd_put, hs, pyIn_error_errObj]
    · cases body with
      | json j => simp [isTransportFailure, hs] at h
      | malformed msg =>
        simp [fd_get, fd_post, fd_put, hs, pyIn_error_errObj]

/-- Witness for the amended claim C3 at a concrete connection timeout. -/
theorem adapters_error_record_on_transport_failure_witness :
    isTransportFailure (.raised "Connection timed out") = true
    ∧ (Json.pyIn "error" (fd_get (.raised "Connection timed out")) = true
       ∧ Json.pyIn "error"
           (fd_post "example.com" "tickets" Json.null (.raised "Connection timed out")) = true
       ∧ Json.pyIn "error"
           (fd_put "example.com" "tickets/7" Json.null (.raised "Connection timed out")) = true) :=
  ⟨rfl, adapters_error_record_on_transport_failure "example.com" "tickets" Json.null
      (.raised "Connection timed out") rfl⟩

/-- Claim C4: a query that is blank or consists only of whitespace makes the
`search` tool return the empty result list with zero upstream calls,
whatever the upstream would have answered. -/
theorem search_blank_query_empty_no_call
    (domain : String) (fetchO : SearchParams → HttpOutcome) (query : String)
    (h : query.toList.all pyIsSpace = true) :
    search domain fetchO query = (Json.obj [("results", Json.arr [])], 0) := by
  have hall : ∀ c ∈ query.data, pyIsSpace c := List.all_eq_true.mp h
  have h1 : query.data.dropWhile pyIsSpace = [] := List.dropWhile_eq_nil_iff.mpr hall
  have hstrip : pyStrip query = "" := by
    unfold pyStrip
    rw [show query.toList = query.data from rfl, h1]
    rfl
  simp [search, hstrip]

/-- Witness for claim C4 at a whitespace-only query. -/
theorem search_blank_query_empty_no_call_witness :
    ((("  \t ").toList.all pyIsSpace) = true)
    ∧ search "example.com" (fun _ => HttpOutcome.raised "unused") "  \t "
        = (Json.obj [("results", Json.arr [])], 0) :=
  ⟨by decide, search_blank_query_empty_no_call "example.com"
      (fun _ => HttpOutcome.raised "unused") "  \t " (by decide)⟩

/-- Claim C5: when the ticket fetch of the `fetch` tool yields a value
containing an error entry, that value is returned unchanged and the
conversation endpoint is called zero times. -/
theorem fetch_ticket_error_returned_unchanged
    (domain : String) (ticket_id : Int) (ticketO convO : HttpOutcome)
    (h : Json.pyIn "error" (fd_get ticketO) = true) :
    fetch domain ticket_id ticketO convO = (fd_get ticketO, 0) := by
  simp [fetch, h]

/-- Witness for claim C5 at a concrete refused connection. -/
theorem fetch_ticket_error_returned_unchanged_witness :
    Json.pyIn "error" (fd_get (.raised "Connection refused")) = true
    ∧ fetch "example.com" 7 (.raised "Connection refused") (.raised "unused")
        = (fd_get (.raised "Connection refused"), 0) :=
  ⟨by decide, fetch_ticket_error_returned_unchanged "example.com" 7
      (.raised "Connection refused") (.raised "unused") (by decide)⟩

/-- Claim C6: when the ticket fetch succeeds but the conversation fetch
yields an error record, `fetch` returns the full detail record built with
the empty conversation list (and one conversation-endpoint call), and that
record carries an empty conversations field. -/
theorem fetch_conversation_error_empty_list
    (domain : String) (ticket_id : Int) (ticketO convO : HttpOutcome) (msg : String)
    (hTicket : Json.pyIn "error" (fd_get ticketO) = false)
    (hConv : fd_get convO = errObj msg) :
    fetch domain ticket_id ticketO convO
      = (mkDetail domain ticket_id (fd_get ticketO) [], 1)
    ∧ (mkDetail domain ticket_id (fd_get ticketO) []).pyGetD "conversations" Json.null
      = Json.arr [] := by
  constructor
  · simp [fetch, hTicket, hConv, pyIn_error_errObj, isDict_errObj, Json.asArr]
  · rfl

/-- Witness for claim C6 at a concrete ticket and a timed-out conversation
fetch. -/
theorem fetch_conversation_error_empty_list_witness :
    Json.pyIn "error" (fd_get okTicketOutcome) = false
    ∧ fd_get (.raised "Read timed out") = errObj "Read timed out"
    ∧ (fetch "example.com" 7 okTicketOutcome (.raised "Read timed out")
        = (mkDetail "example.com" 7 (fd_get okTicketOutcome) [], 1)
      ∧ (mkDetail "example.com" 7 (fd_get okTicketOutcome) []).pyGetD "conversations" Json.null
        = Json.arr []) :=
  ⟨by decide, rfl, fetch_conversation_error_empty_list "example.com" 7 okTicketOutcome
      (.raised "Read timed out") "Read timed out" (by decide) rfl⟩

/-- Claim C7: with only status supplied the patch body is solely the status
key, and in general each of the three keys appears only when the matching
argument was supplied. -/
theorem update_ticket_patch_only_supplied_fields
    (s : Int) (st pr : Option Int) (de : Option String) :
    update_ticket_data (some s) none none = [("status", Json.num s)]
    ∧ (st = none → "status" ∉ (update_ticket_data st pr de).map Prod.fst)
    ∧ (pr = none → "priority" ∉ (update_ticket_data st pr de).map Prod.fst)
    ∧ (de = none → "description" ∉ (update_ticket_data st pr de).map Prod.fst) := by
  refine ⟨by simp [update_ticket_data], ?_, ?_, ?_⟩
  · rintro rfl
    cases pr <;> cases de <;> simp [update_ticket_data]
  · rintro rfl
    cases st <;> cases de <;> simp [update_ticket_data]
  · rintro rfl
    cases st <;> cases pr <;> simp [update_ticket_data]

/-- Witness for claim C7 with only status equal to 2 supplied. -/
theorem update_ticket_patch_only_supplied_fields_witness :
    update_ticket_data (some 2) none none = [("status", Json.num 2)]
    ∧ "priority" ∉ (update_ticket_data (some 2) none none).map Prod.fst
    ∧ "description" ∉ (update_ticket_data (some 2) none none).map Prod.fst :=
  ⟨(update_ticket_patch_only_supplied_fields 2 (some 2) none none).1,
   (update_ticket_patch_only_supplied_fields 2 (some 2) none none).2.2.1 rfl,
   (update_ticket_patch_only_supplied_fields 2 (some 2) none none).2.2.2 rfl⟩

/-- Claim C8: for a ticket whose description text is the string s (absent
defaults to the empty string), the summary description is the first 200
characters of s followed by the ellipsis marker; and a search with a
non-blank query returns exactly the paginated tickets mapped through that
summary builder. -/
theorem search_summary_description_truncated
    (domain : String) (t : Json) (s : String)
    (fetchO : SearchParams → HttpOutcome) (q : String)
    (hdesc : t.pyGetD "description_text" (Json.str "") = Json.str s)
    (hq : (pyStrip q == "") = false) :
    (summarize domain t).pyGetD "description" Json.null
      = Json.str (s.take 200 ++ "...")
    ∧ (search domain fetchO q).1
      = Json.obj [("results",
          Json.arr ((paginate_tickets fetchO (some q)).1.map (summarize domain)))] := by
  constructor
  · simp only [summarize]
    rw [hdesc]
    rfl
  · simp [search, hq]

/-- Witness for claim C8 at a concrete ticket and query. -/
theorem search_summary_description_truncated_witness :
    okTicketBody.pyGetD "description_text" (Json.str "") = Json.str "The printer is on fire"
    ∧ (pyStrip "printer" == "") = false
    ∧ ((summarize "example.com" okTicketBody).pyGetD "description" Json.null
        = Json.str (("The printer is on fire").take 200 ++ "...")
      ∧ (search "example.com" (fun _ => HttpOutcome.raised "oops") "printer").1
        = Json.obj [("results",
            Json.arr ((paginate_tickets (fun _ => HttpOutcome.raised "oops")
              (some "printer")).1.map (summarize "example.com")))]) :=
  ⟨rfl, by decide,
   search_summary_description_truncated "example.com" okTicketBody "The printer is on fire"
     (fun _ => HttpOutcome.raised "oops") "printer" rfl (by decide)⟩

/-- Claim C9: the detail record of a successful `fetch` carries in its
metadata the url "https://<domain>/a/tickets/<requested id>", and a search
summary of a ticket whose id field is the integer n carries the url
"https://<domain>/a/tickets/<n>". -/
theorem ticket_permalink_exact
    (domain : String) (ticket_id : Int) (ticketO convO : HttpOutcome)
    (t : Json) (n : Int)
    (hTicket : Json.pyIn "error" (fd_get ticketO) = false)
    (hid : t.pyGetD "id" Json.null = Json.num n) :
    ((fetch domain ticket_id ticketO convO).1.pyGetD "metadata" Json.null).pyGetD
        "url" Json.null
      = Json.str ("https://" ++ domain ++ "/a/tickets/" ++ toString ticket_id)
    ∧ (summarize domain t).pyGetD "url" Json.null
      = Json.str ("https://" ++ domain ++ "/a/tickets/" ++ toString n) := by
  constructor
  · simp only [fetch, hTicket, Bool.false_eq_true, if_false]
    rfl
  · simp only [summarize]
    rw [hid]
    rfl

/-- Witness for claim C9 at ticket 7 of a concrete domain. -/
theorem ticket_permalink_exact_witness :
    Json.pyIn "error" (fd_get okTicketOutcome) = false
    ∧ okTicketBody.pyGetD "id" Json.null = Json.num 7
    ∧ (((fetch "example.com" 7 okTicketOutcome (.raised "x")).1.pyGetD
          "metadata" Json.null).pyGetD "url" Json.null
        = Json.str ("https://" ++ "example.com" ++ "/a/tickets/" ++ toString (7 : Int))
      ∧ (summarize "example.com" okTicketBody).pyGetD "url" Json.null
        = Json.str ("https://" ++ "example.com" ++ "/a/tickets/" ++ toString (7 : Int))) :=
  ⟨by decide, rfl,
   ticket_permalink_exact "example.com" 7 okTicketOutcome (.raised "x") okTicketBody 7
     (by decide) rfl⟩

/-- Claim C10: a description supplied as the empty string leaves the patch
exactly as if description were absent (the source tests its truthiness), so
no description key appears; status and priority supplied as 0 are included,
since they are compared against None. -/
theorem update_ticket_empty_description_omitted_zero_kept (st pr : Option Int) :
    update_ticket_data st pr (some "") = update_ticket_data st pr none
    ∧ update_ticket_data (some 0) (some 0) none
      = [("status", Json.num 0), ("priority", Json.num 0)] := by
  constructor
  · cases st <;> cases pr <;> simp [update_ticket_data]
  · rfl
